import Mathlib

/-!
# Verification of the restricted execution sandbox (`execute_code_safely`)

This file embeds the core of `src/app.py` — the function
`execute_code_safely` (lines 171–207) — and proves the specification's
claims about it.

`execute_code_safely` does four things:

1. saves `sys.stdout` and redirects it to a fresh `io.StringIO` buffer;
2. builds `exec_globals = \x7b'__builtins__': \x7b'print': print, …\x7d\x7d`,
   a fixed sixteen-name capability allowlist, and runs
   `exec(code, exec_globals)`;
3. on success returns the captured output, or a fixed sentinel string when
   the output is empty; on any `Exception` returns `"Error: " + str(e)`;
4. in a `finally` block restores `sys.stdout` unconditionally.

The call `exec(code, exec_globals)` invokes the full CPython compiler and
interpreter, which cannot be embedded in its entirety.  Following the
specification's own note that "the exact evaluation dialect is left to the
host language's native parser/evaluator", we embed a straight-line dialect
of Python that is faithful on everything the claims observe:

* CPython name resolution for `exec` with an explicit globals dict: a name
  is looked up first among the globals created by the executed source,
  then as the key `__builtins__` (which CPython resolves to the provided
  builtins mapping itself), then in the allowlisted builtins mapping;
  anything else raises `NameError("name '<n>' is not defined")`.
* `print` writes its arguments, `str`-converted and space-separated, plus
  a newline, to the redirected stream (the captured buffer).
* Division by zero raises `ZeroDivisionError("division by zero")`; an
  `import` statement under a builtins mapping without `__import__` raises
  `ImportError("__import__ not found")`; calling a non-callable raises a
  `TypeError`.  All of these derive from `Exception`, so the `except`
  clause catches every fault the dialect can raise, as does CPython's for
  every fault reachable from this allowlist.
* Texts rejected by the CPython compiler are represented by the
  `Source.syntaxErr` constructor carrying the `SyntaxError` message; the
  fault is raised before any statement runs, so no output precedes it.

Numeric results outside the claims' reach are approximated: `/` on a
nonzero divisor yields a whole float (truncating a non-integral quotient),
which no claim observes; the claims only observe the zero-divisor fault.
-/

namespace PyAssist

/-- The keys of the builtins mapping in `exec_globals` (src/app.py lines
179–197), in source order.  This is the capability allowlist. -/
def allowlistNames : List String :=
  ["print", "len", "str", "int", "float", "list", "dict",
   "range", "enumerate", "zip", "max", "min", "sum", "sorted", "abs", "round"]

/-- Runtime values of the embedded dialect. -/
inductive PyVal where
  /-- a Python `int` -/
  | int : Int → PyVal
  /-- a whole-valued Python `float`, as produced by `float(n)`; prints as
  `n.0` -/
  | float : Int → PyVal
  /-- a Python `str` -/
  | str : String → PyVal
  /-- a Python `bool` (only reachable from literals in this dialect: the
  allowlist binds no `bool` constructor) -/
  | bool : Bool → PyVal
  /-- a Python `list` -/
  | list : List PyVal → PyVal
  /-- a Python `tuple` (produced by `enumerate`/`zip`) -/
  | tuple : List PyVal → PyVal
  /-- `None` -/
  | none : PyVal
  /-- one of the sixteen allowlisted built-in callables -/
  | builtin : String → PyVal
  /-- the builtins dict itself, the value of the global `__builtins__` -/
  | builtinsDict : PyVal

/-- Python type name of a value, as used in fault messages. -/
def typeName : PyVal → String
  | .int _ => "int"
  | .float _ => "float"
  | .str _ => "str"
  | .bool _ => "bool"
  | .list _ => "list"
  | .tuple _ => "tuple"
  | .none => "NoneType"
  | .builtin _ => "builtin_function_or_method"
  | .builtinsDict => "dict"

/-- Join strings with a separator, as `sep.join(xs)` does. -/
def joinSep (sep : String) : List String → String
  | [] => ""
  | [x] => x
  | x :: xs => x ++ sep ++ joinSep sep (xs)

mutual

/-- `repr()` of a value: how it prints inside containers. -/
def pyRepr : PyVal → String
  | .int i => toString i
  | .float i => toString i ++ ".0"
  | .str s => "'" ++ s ++ "'"
  | .bool b => if b then "True" else "False"
  | .list vs => "[" ++ joinSep ", " (pyReprList vs) ++ "]"
  | .tuple vs => "(" ++ joinSep ", " (pyReprList vs) ++ ")"
  | .none => "None"
  | .builtin n => "<built-in function " ++ n ++ ">"
  | .builtinsDict => "\x7b...\x7d"

/-- `repr()` of each element of a list. -/
def pyReprList : List PyVal → List String
  | [] => []
  | v :: vs => pyRepr v :: pyReprList vs

end

/-- `str()` of a value: how `print` renders a top-level argument.  Strings
print without quotes; everything else prints as its `repr`. -/
def pyStr : PyVal → String
  | .str s => s
  | v => pyRepr v

/-- Binary operators of the dialect. -/
inductive BinOp where
  | add | sub | mul | div

/-- Expressions of the embedded dialect. -/
inductive PyExpr where
  | intLit : Int → PyExpr
  | strLit : String → PyExpr
  | boolLit : Bool → PyExpr
  | listLit : List PyExpr → PyExpr
  | name : String → PyExpr
  | binop : BinOp → PyExpr → PyExpr → PyExpr
  | call : PyExpr → List PyExpr → PyExpr

/-- Statements of the embedded dialect (straight-line, as in every
scenario the specification states). -/
inductive PyStmt where
  /-- `x = e` -/
  | assign : String → PyExpr → PyStmt
  /-- a bare expression statement such as `print(x)` -/
  | exprStmt : PyExpr → PyStmt
  /-- `import m` -/
  | importStmt : String → PyStmt

/-- A source text, as seen after CPython's compile phase: either a parsed
statement list or a text the compiler rejected with a `SyntaxError`
message. -/
inductive Source where
  | parsed : List PyStmt → Source
  | syntaxErr : String → Source

/-- The globals dict that `exec` populates as the source assigns names;
newest binding first, as assignments overwrite. -/
abbrev Env := List (String × PyVal)

/-- CPython name resolution inside `exec(code, exec_globals)`: the globals
dict first — which holds the source's own assignments and the key
`__builtins__` bound to the builtins mapping — then the allowlisted
builtins mapping; any other name is unresolved. -/
def lookupName (g : Env) (n : String) : Option PyVal :=
  match g.find? (fun kv => kv.1 == n) with
  | some kv => some kv.2
  | Option.none =>
    if n = "__builtins__" then some PyVal.builtinsDict
    else if allowlistNames.contains n then some (PyVal.builtin n)
    else Option.none

/-- The `NameError` message CPython produces for an unresolved name. -/
def nameErrorMsg (n : String) : String :=
  "name '" ++ n ++ "' is not defined"

/-- Insert an integer into an already-sorted list (ascending). -/
def insertAsc (x : Int) : List Int → List Int
  | [] => [x]
  | y :: ys => if x ≤ y then x :: y :: ys else y :: insertAsc x ys

/-- Stable ascending insertion sort, the observable behaviour of
`sorted` on an integer list. -/
def sortAsc : List Int → List Int
  | [] => []
  | x :: xs => insertAsc x (sortAsc xs)

/-- Extract an all-integers view of a list of values, when it is one. -/
def allInts : List PyVal → Option (List Int)
  | [] => some []
  | PyVal.int i :: vs => (allInts vs).map (fun l => i :: l)
  | _ => Option.none

/-- `range` over a half-open integer interval, as a list of ints. -/
def rangeList (a b : Int) : List PyVal :=
  (List.range (b - a).toNat).map (fun k => PyVal.int (a + k))

/-- Number each element, as `list(enumerate(xs))` would. -/
def enumList (vs : List PyVal) : List PyVal :=
  (List.range vs.length).zip vs |>.map (fun p => PyVal.tuple [PyVal.int p.1, p.2])

/-- Apply one of the allowlisted builtins to already-evaluated arguments.
Returns the updated captured-output buffer and either a value or the
`str()` of the `Exception` the call raises.  `print` is exact; the pure
numeric and sequence builtins follow CPython on the integer/string/list
fragment of the dialect. -/
def applyBuiltin (b : String) (args : List PyVal) (out : String) :
    String × Except String PyVal :=
  match b, args with
  | "print", vs =>
      (out ++ joinSep " " (vs.map pyStr) ++ "\n", .ok PyVal.none)
  | "len", [PyVal.str s] => (out, .ok (PyVal.int s.length))
  | "len", [PyVal.list l] => (out, .ok (PyVal.int l.length))
  | "len", [PyVal.tuple l] => (out, .ok (PyVal.int l.length))
  | "len", [v] =>
      (out, .error ("object of type '" ++ typeName v ++ "' has no len()"))
  | "str", [] => (out, .ok (PyVal.str ""))
  | "str", [v] => (out, .ok (PyVal.str (pyStr v)))
  | "int", [] => (out, .ok (PyVal.int 0))
  | "int", [PyVal.int i] => (out, .ok (PyVal.int i))
  | "int", [PyVal.float i] => (out, .ok (PyVal.int i))
  | "int", [PyVal.bool b'] => (out, .ok (PyVal.int (if b' then 1 else 0)))
  | "int", [PyVal.str s] =>
      match s.toInt? with
      | some i => (out, .ok (PyVal.int i))
      | Option.none =>
          (out, .error ("invalid literal for int() with base 10: '" ++ s ++ "'"))
  | "float", [] => (out, .ok (PyVal.float 0))
  | "float", [PyVal.int i] => (out, .ok (PyVal.float i))
  | "float", [PyVal.float i] => (out, .ok (PyVal.float i))
  | "list", [] => (out, .ok (PyVal.list []))
  | "list", [PyVal.list l] => (out, .ok (PyVal.list l))
  | "list", [PyVal.tuple l] => (out, .ok (PyVal.list l))
  | "list", [PyVal.str s] =>
      (out, .ok (PyVal.list (s.toList.map (fun c => PyVal.str (String.singleton c)))))
  | "list", [v] =>
      (out, .error ("'" ++ typeName v ++ "' object is not iterable"))
  | "dict", [] => (out, .ok PyVal.builtinsDict)
  | "range", [PyVal.int n] => (out, .ok (PyVal.list (rangeList 0 n)))
  | "range", [PyVal.int a, PyVal.int b'] => (out, .ok (PyVal.list (rangeList a b')))
  | "enumerate", [PyVal.list l] => (out, .ok (PyVal.list (enumList l)))
  | "zip", [PyVal.list l, PyVal.list l'] =>
      (out, .ok (PyVal.list ((l.zip l').map (fun p => PyVal.tuple [p.1, p.2]))))
  | "sum", [PyVal.list l] =>
      match allInts l with
      | some is => (out, .ok (PyVal.int (is.foldl (· + ·) 0)))
      | Option.none => (out, .error "unsupported operand type(s) for +")
  | "max", [PyVal.list l] =>
      match allInts l with
      | some [] => (out, .error "max() arg is an empty sequence")
      | some (i :: is) => (out, .ok (PyVal.int (is.foldl max i)))
      | Option.none => (out, .error "'<' not supported between instances")
  | "min", [PyVal.list l] =>
      match allInts l with
      | some [] => (out, .error "min() arg is an empty sequence")
      | some (i :: is) => (out, .ok (PyVal.int (is.foldl min i)))
      | Option.none => (out, .error "'<' not supported between instances")
  | "sorted", [PyVal.list l] =>
      match allInts l with
      | some is => (out, .ok (PyVal.list ((sortAsc is).map PyVal.int)))
      | Option.none => (out, .error "'<' not supported between instances")
  | "abs", [PyVal.int i] => (out, .ok (PyVal.int i.natAbs))
  | "abs", [PyVal.float i] => (out, .ok (PyVal.float i.natAbs))
  | "round", [PyVal.int i] => (out, .ok (PyVal.int i))
  | "round", [PyVal.float i] => (out, .ok (PyVal.int i))
  | b', _ => (out, .error (b' ++ "() does not support these arguments"))

/-- Evaluate a binary operation.  `/` with a zero divisor raises
`ZeroDivisionError("division by zero")`, the only arithmetic fault the
specification observes; a nonzero true-division quotient is modelled as a
whole float, truncating when the divisor does not divide the dividend. -/
def evalBinop : BinOp → PyVal → PyVal → Except String PyVal
  | .add, PyVal.int a, PyVal.int b => .ok (PyVal.int (a + b))
  | .sub, PyVal.int a, PyVal.int b => .ok (PyVal.int (a - b))
  | .mul, PyVal.int a, PyVal.int b => .ok (PyVal.int (a * b))
  | .div, PyVal.int a, PyVal.int b =>
      if b = 0 then .error "division by zero"
      else .ok (PyVal.float (a / b))
  | .add, PyVal.str a, PyVal.str b => .ok (PyVal.str (a ++ b))
  | op, a, b =>
      let sym := match op with
        | .add => "+"
        | .sub => "-"
        | .mul => "*"
        | .div => "/"
      .error ("unsupported operand type(s) for " ++ sym ++ ": '" ++
        typeName a ++ "' and '" ++ typeName b ++ "'")

mutual

/-- Evaluate an expression under the globals `g`, threading the captured
output buffer; a fault is the `str()` of the raised `Exception`. -/
def evalExpr (g : Env) (out : String) : PyExpr → String × Except String PyVal
  | .intLit i => (out, .ok (PyVal.int i))
  | .strLit s => (out, .ok (PyVal.str s))
  | .boolLit b => (out, .ok (PyVal.bool b))
  | .listLit es =>
      match evalArgs g out es with
      | (out', .ok vs) => (out', .ok (PyVal.list vs))
      | (out', .error m) => (out', .error m)
  | .name n =>
      match lookupName g n with
      | some v => (out, .ok v)
      | Option.none => (out, .error (nameErrorMsg n))
  | .binop op a b =>
      match evalExpr g out a with
      | (out', .error m) => (out', .error m)
      | (out', .ok va) =>
        match evalExpr g out' b with
        | (out'', .error m) => (out'', .error m)
        | (out'', .ok vb) => (out'', evalBinop op va vb)
  | .call f es =>
      match evalExpr g out f with
      | (out', .error m) => (out', .error m)
      | (out', .ok vf) =>
        match evalArgs g out' es with
        | (out'', .error m) => (out'', .error m)
        | (out'', .ok vs) =>
          match vf with
          | PyVal.builtin b => applyBuiltin b vs out''
          | v => (out'', .error ("'" ++ typeName v ++ "' object is not callable"))

/-- Evaluate an argument list left to right, stopping at the first
fault. -/
def evalArgs (g : Env) (out : String) :
    List PyExpr → String × Except String (List PyVal)
  | [] => (out, .ok [])
  | e :: es =>
      match evalExpr g out e with
      | (out', .error m) => (out', .error m)
      | (out', .ok v) =>
        match evalArgs g out' es with
        | (out'', .error m) => (out'', .error m)
        | (out'', .ok vs) => (out'', .ok (v :: vs))

end

/-- Execute one statement: the updated globals, the updated captured
output, and the fault message, if one was raised.  An `import` statement
under a builtins mapping that lacks `__import__` raises
`ImportError("__import__ not found")`. -/
def execStmt (g : Env) (out : String) : PyStmt → Env × String × Option String
  | .assign x e =>
      match evalExpr g out e with
      | (out', .ok v) => ((x, v) :: g, out', Option.none)
      | (out', .error m) => (g, out', some m)
  | .exprStmt e =>
      match evalExpr g out e with
      | (out', .ok _) => (g, out', Option.none)
      | (out', .error m) => (g, out', some m)
  | .importStmt _ => (g, out, some "__import__ not found")

/-- Run a statement list in order, stopping at the first fault; returns
the captured output written so far and the fault message, if any. -/
def runStmts (g : Env) (out : String) : List PyStmt → String × Option String
  | [] => (out, Option.none)
  | s :: rest =>
      match execStmt g out s with
      | (g', out', Option.none) => runStmts g' out' rest
      | (_, out', some m) => (out', some m)

/-- The effect of `exec(code, exec_globals)` on a fresh globals dict and
an empty captured buffer: the buffer contents when `exec` returns or
raises, and the `str()` of the raised `Exception`, if any.  A text the
compiler rejects raises its `SyntaxError` before anything runs. -/
def runSource : Source → String × Option String
  | .syntaxErr m => ("", some m)
  | .parsed p => runStmts [] "" p

/-- A destination for the process-wide `sys.stdout`. -/
inductive OutStream where
  /-- the stream the host held before the call (the real terminal) -/
  | host : OutStream
  /-- the fresh `io.StringIO` installed at entry -/
  | captured : OutStream
  /-- any other stream value the host might have installed -/
  | other : Nat → OutStream
  deriving DecidableEq

/-- The process-wide interpreter state the function touches. -/
structure Sys where
  /-- the current value of `sys.stdout` -/
  stdout : OutStream
  deriving DecidableEq

/-- The fixed sentinel returned after a silent successful execution. -/
def successSentinel : String := "Code executed successfully (no output)"

/-- The embedding of `execute_code_safely` (src/app.py lines 171–207):
save `sys.stdout`, redirect it to the fresh capture buffer, run the code
under the allowlist, and return the captured output (or the sentinel when
it is empty, Python string truthiness) on success, `"Error: " + str(e)`
on any `Exception`; the `finally` block restores `sys.stdout` on both
exit paths. -/
def execute_code_safely (code : Source) (s : Sys) : String × Sys :=
  -- old_stdout = sys.stdout
  let old_stdout := s.stdout
  -- sys.stdout = captured_output = io.StringIO()
  let s' : Sys := { s with stdout := OutStream.captured }
  -- try: exec(code, exec_globals) / except Exception as e / finally
  match runSource code with
  | (output, Option.none) =>
      -- return output if output else "Code executed successfully (no output)"
      ((if output = "" then successSentinel else output),
       { s' with stdout := old_stdout })
  | (_, some e) =>
      -- return f"Error: \x7bstr(e)\x7d"
      ("Error: " ++ e, { s' with stdout := old_stdout })

end PyAssist

namespace PyAssist

/-! ## Helper lemmas shared by the claim theorems -/

/-- The result string of `execute_code_safely` does not depend on the
incoming interpreter state: the captured buffer is fresh per call. -/
theorem exec_fst_const (code : Source) (s s' : Sys) :
    (execute_code_safely code s).1 = (execute_code_safely code s').1 := by
  rcases hr : runSource code with ⟨o, f⟩
  cases f <;> simp [execute_code_safely, hr]

/-- The `finally` block restores `sys.stdout` on both exit paths. -/
theorem exec_stdout_eq (code : Source) (s : Sys) :
    ((execute_code_safely code s).2).stdout = s.stdout := by
  rcases hr : runSource code with ⟨o, f⟩
  cases f <;> simp [execute_code_safely, hr]

/-- Running a single bare-name statement for an unresolvable identifier
faults with the `NameError` message, producing no output. -/
theorem runSource_bare_name (n : String)
    (h1 : allowlistNames.contains n = false) (h2 : n ≠ "__builtins__") :
    runSource (Source.parsed [PyStmt.exprStmt (PyExpr.name n)])
      = ("", some (nameErrorMsg n)) := by
  have h1' : n ∉ allowlistNames := by simpa using h1
  simp [runSource, runStmts, execStmt, evalExpr, lookupName, h1', h2]

end PyAssist

namespace PyAssist

/-! ## Claim theorems -/

/-- C1: for every source text, `execute_code_safely` returns normally (it
is a total function of its arguments); every parse-time or run-time fault
raised while running the source — the second component of `runSource`
being `some m` covers syntax errors, unresolved names, raised exceptions,
type errors and division by zero alike — is converted into the failure
string `"Error: " ++ m`, and a non-faulting run yields either its output
or the sentinel, so no fault propagates past the boundary. -/
theorem execute_converts_all_faults (code : Source) (s : Sys) :
    (∃ m, (runSource code).2 = some m ∧
      (execute_code_safely code s).1 = "Error: " ++ m) ∨
    ((runSource code).2 = Option.none ∧
      ((execute_code_safely code s).1 = (runSource code).1 ∨
       (execute_code_safely code s).1 = successSentinel)) := by
  rcases hr : runSource code with ⟨o, f⟩
  cases f with
  | none =>
      right
      refine ⟨rfl, ?_⟩
      by_cases ho : o = "" <;> simp [execute_code_safely, hr, ho]
  | some m =>
      left
      exact ⟨m, rfl, by simp [execute_code_safely, hr]⟩

/-- C2: after `execute_code_safely` returns — success or fault — the
process-wide `sys.stdout` holds exactly the destination it held before
the call: the redirection at entry is undone by the `finally` block on
every exit path. -/
theorem execute_restores_stdout (code : Source) (s : Sys) :
    ((execute_code_safely code s).2).stdout = s.stdout :=
  exec_stdout_eq code s

/-- C3: a source that runs without fault and writes no output makes
`execute_code_safely` return the fixed sentinel
`"Code executed successfully (no output)"`, never the empty string. -/
theorem execute_silent_success_sentinel (code : Source) (s : Sys)
    (h : runSource code = ("", Option.none)) :
    (execute_code_safely code s).1 = successSentinel ∧
    0 < ((execute_code_safely code s).1).length := by
  have h1 : (execute_code_safely code s).1 = successSentinel := by
    simp [execute_code_safely, h]
  exact ⟨h1, by rw [h1]; decide⟩

/-- C3 witness: the spec's Scenario B, `x = 1`, runs silently and yields
the sentinel. -/
theorem execute_silent_success_sentinel_witness :
    (execute_code_safely (Source.parsed [PyStmt.assign "x" (PyExpr.intLit 1)])
      ⟨OutStream.host⟩).1 = successSentinel :=
  (execute_silent_success_sentinel
    (Source.parsed [PyStmt.assign "x" (PyExpr.intLit 1)]) ⟨OutStream.host⟩ rfl).1

/-- C4: a source that runs without fault and writes non-empty text `t`
makes `execute_code_safely` return exactly `t`, unmodified. -/
theorem execute_returns_output_verbatim (code : Source) (s : Sys) (t : String)
    (h1 : runSource code = (t, Option.none)) (h2 : t ≠ "") :
    (execute_code_safely code s).1 = t := by
  simp [execute_code_safely, h1, h2]

/-- C4 witness: the spec's Scenario A, `print('hi')`, writes `"hi\n"` and
`execute_code_safely` returns exactly that. -/
theorem execute_returns_output_verbatim_witness :
    runSource (Source.parsed
      [PyStmt.exprStmt (PyExpr.call (PyExpr.name "print") [PyExpr.strLit "hi"])])
      = ("hi\n", Option.none) ∧
    (execute_code_safely (Source.parsed
      [PyStmt.exprStmt (PyExpr.call (PyExpr.name "print") [PyExpr.strLit "hi"])])
      ⟨OutStream.host⟩).1 = "hi\n" :=
  ⟨rfl, execute_returns_output_verbatim _ _ "hi\n" rfl (by decide)⟩

/-- C5 counterexample: the identifier `__builtins__` is not one of the
sixteen allowlisted capability names, yet the source consisting of the
bare expression `__builtins__` resolves it (CPython binds the key
`__builtins__` of the globals dict to the builtins mapping itself), runs
without fault, and `execute_code_safely` returns the success sentinel —
a successful result, not a name-not-defined failure. -/
theorem builtins_name_resolves_counterexample :
    allowlistNames.contains "__builtins__" = false ∧
    runSource (Source.parsed [PyStmt.exprStmt (PyExpr.name "__builtins__")])
      = ("", Option.none) ∧
    (execute_code_safely (Source.parsed [PyStmt.exprStmt (PyExpr.name "__builtins__")])
      ⟨OutStream.host⟩).1 = successSentinel :=
  ⟨rfl, rfl, rfl⟩

/-- C5 (amended): for every identifier outside the capability allowlist
other than the special global `__builtins__` (which names the allowlist
mapping itself), referencing the identifier faults the run with
`NameError`, and `execute_code_safely` returns the failure string
`"Error: name '<n>' is not defined"` — never a successful result. -/
theorem execute_undefined_name_failure (n : String) (s : Sys)
    (h1 : allowlistNames.contains n = false) (h2 : n ≠ "__builtins__") :
    runSource (Source.parsed [PyStmt.exprStmt (PyExpr.name n)])
      = ("", some (nameErrorMsg n)) ∧
    (execute_code_safely (Source.parsed [PyStmt.exprStmt (PyExpr.name n)]) s).1
      = "Error: " ++ nameErrorMsg n := by
  have hrun := runSource_bare_name n h1 h2
  exact ⟨hrun, by simp [execute_code_safely, hrun]⟩

/-- C5 witness: the ambient file-opening facility `open` is outside the
allowlist, and referencing it yields the name-not-defined failure. -/
theorem execute_undefined_name_failure_witness :
    allowlistNames.contains "open" = false ∧
    (execute_code_safely (Source.parsed [PyStmt.exprStmt (PyExpr.name "open")])
      ⟨OutStream.host⟩).1 = "Error: name 'open' is not defined" :=
  ⟨rfl, (execute_undefined_name_failure "open" ⟨OutStream.host⟩ rfl (by decide)).2⟩

/-- The allowlisted names transcribed by category from the specification
(§4.1), with the two divergences the code forces: no boolean constructor
is bound, and the mapping constructor `dict` is bound alongside the
sequence constructors. -/
def outputEmissionNames : List String := ["print"]

/-- Length/size query capability of the allowlist. -/
def sizeQueryNames : List String := ["len"]

/-- String/number construction capability of the allowlist; no boolean
constructor is present. -/
def scalarCtorNames : List String := ["str", "int", "float"]

/-- Sequence and mapping construction capability of the allowlist. -/
def seqCtorNames : List String := ["list", "dict", "range", "enumerate", "zip"]

/-- Aggregate numeric operations of the allowlist. -/
def aggregateNames : List String := ["sum", "min", "max", "round", "abs"]

/-- The sorting capability of the allowlist. -/
def sortNames : List String := ["sorted"]

/-- C6 counterexample: the claim places a boolean construction primitive
among the bound names, but `bool` is not in the capability allowlist the
code constructs. -/
theorem no_bool_in_allowlist_counterexample :
    allowlistNames.contains "bool" = false :=
  rfl

/-- C6 (amended): the capability allowlist binds names for exactly these
categories and no others — output emission, length/size queries,
string/number construction (with no boolean construction primitive),
sequence/mapping construction (the mapping constructor `dict` is bound
alongside the list/range/enumerate/zip equivalents), the aggregate
numeric operations, and `sorted` — each name exactly once. -/
theorem allowlist_matches_categories :
    allowlistNames.Perm
      (outputEmissionNames ++ sizeQueryNames ++ scalarCtorNames ++
        seqCtorNames ++ aggregateNames ++ sortNames) ∧
    allowlistNames.contains "bool" = false ∧
    allowlistNames.Nodup := by
  refine ⟨by decide, rfl, by decide⟩

/-- C7: every faulting execution returns exactly the fixed tag
`"Error: "` followed by the fault's textual description, and nothing
else. -/
theorem execute_fault_error_format (code : Source) (s : Sys) (m : String)
    (h : (runSource code).2 = some m) :
    (execute_code_safely code s).1 = "Error: " ++ m := by
  rcases hr : runSource code with ⟨o, f⟩
  rw [hr] at h
  simp only at h
  subst h
  simp [execute_code_safely, hr]

/-- C7 witness: the spec's Scenario D, `1/0`, faults with
`ZeroDivisionError` and yields a failure that starts with `"Error: "` and
contains `"division by zero"`. -/
theorem execute_fault_error_format_witness :
    (runSource (Source.parsed
      [PyStmt.exprStmt (PyExpr.binop BinOp.div (PyExpr.intLit 1) (PyExpr.intLit 0))])).2
      = some "division by zero" ∧
    (execute_code_safely (Source.parsed
      [PyStmt.exprStmt (PyExpr.binop BinOp.div (PyExpr.intLit 1) (PyExpr.intLit 0))])
      ⟨OutStream.host⟩).1 = "Error: division by zero" :=
  ⟨rfl, execute_fault_error_format _ _ "division by zero" rfl⟩

/-- C8: executing the same source twice in sequence — the second call
starting from the interpreter state the first call left behind — yields
identical result strings, and leaves `sys.stdout` where it started: no
state created by one invocation (globals, captured buffer, redirection)
survives to influence the next. -/
theorem execute_idempotent (code : Source) (s : Sys) :
    (execute_code_safely code ((execute_code_safely code s).2)).1
      = (execute_code_safely code s).1 ∧
    ((execute_code_safely code ((execute_code_safely code s).2)).2).stdout
      = s.stdout :=
  ⟨exec_fst_const code _ s,
   (exec_stdout_eq code _).trans (exec_stdout_eq code s)⟩

/-- C9: the empty source text is not rejected specially: it executes,
produces no output and no fault, and `execute_code_safely` returns the
empty-success sentinel, not a failure. -/
theorem execute_empty_source_sentinel (s : Sys) :
    runSource (Source.parsed []) = ("", Option.none) ∧
    (execute_code_safely (Source.parsed []) s).1 = successSentinel :=
  ⟨rfl, rfl⟩

/-- C10: when a source writes some output and then faults, the returned
value is only the error form `"Error: " ++ m` — its length accounts for
the tag and the fault message alone, so the output captured before the
fault is discarded, never concatenated to or returned alongside the
failure text. -/
theorem execute_discards_output_on_fault (code : Source) (s : Sys)
    (o m : String) (h : runSource code = (o, some m)) :
    (execute_code_safely code s).1 = "Error: " ++ m ∧
    ((execute_code_safely code s).1).length = "Error: ".length + m.length := by
  have h1 : (execute_code_safely code s).1 = "Error: " ++ m := by
    simp [execute_code_safely, h]
  exact ⟨h1, by rw [h1, String.length_append]⟩

/-- C10 witness: `print('hi')` followed by `1/0` captures `"hi\n"` before
the fault, yet the result is exactly `"Error: division by zero"`, with the
partial output discarded. -/
theorem execute_discards_output_on_fault_witness :
    runSource (Source.parsed
      [PyStmt.exprStmt (PyExpr.call (PyExpr.name "print") [PyExpr.strLit "hi"]),
       PyStmt.exprStmt (PyExpr.binop BinOp.div (PyExpr.intLit 1) (PyExpr.intLit 0))])
      = ("hi\n", some "division by zero") ∧
    (execute_code_safely (Source.parsed
      [PyStmt.exprStmt (PyExpr.call (PyExpr.name "print") [PyExpr.strLit "hi"]),
       PyStmt.exprStmt (PyExpr.binop BinOp.div (PyExpr.intLit 1) (PyExpr.intLit 0))])
      ⟨OutStream.host⟩).1 = "Error: division by zero" :=
  ⟨rfl, (execute_discards_output_on_fault (Source.parsed
      [PyStmt.exprStmt (PyExpr.call (PyExpr.name "print") [PyExpr.strLit "hi"]),
       PyStmt.exprStmt (PyExpr.binop BinOp.div (PyExpr.intLit 1) (PyExpr.intLit 0))])
      ⟨OutStream.host⟩ "hi\n" "division by zero" rfl).1⟩

end PyAssist
